import Mathlib

/-!
Shallow embedding of the Capacity Compliance & Vacancy Projection Engine of
the sf-fcc-vacancy-registry repository.

Sources embedded:
  * src/src/utils/ageGroups.ts    (age classification)
  * src/src/utils/compliance.ts   (capacity rule engine + compliance evaluator)
  * src/src/utils/projections.ts  (projection engine)
  * src/src/components/registry/RosterSummary.tsx (vacancy auto-fill allocator)

Calendar dates are modelled as (year, month, day) triples with 1-based
months (the TypeScript sources use JavaScript's 0-based `getMonth()`; the
translation below shifts those comparisons by one accordingly).  ISO date
strings of the boundary are modelled directly as `Date` values.
-/

/-- Program type; string-literal union `'small_family' | 'large_family'` in the source. -/
inductive ProgramType where
  | small_family
  | large_family
deriving DecidableEq, Repr

/-- Age group; string-literal union `'infant' | 'non_infant'` in the source. -/
inductive AgeGroup where
  | infant
  | non_infant
deriving DecidableEq, Repr

/-- A calendar date (year, month 1..12, day 1..31). -/
structure Date where
  year : Int
  month : Int
  day : Int
deriving DecidableEq, Repr

/-- Roster entry (`Child` in src/src/types); only the fields the engine reads. -/
structure Child where
  id : Nat
  firstName : String
  lastName : String
  dateOfBirth : Date
  expectedDepartureDate : Option Date
deriving DecidableEq, Repr

/-- `CapacityConfig` from src/src/types. -/
structure CapacityConfig where
  programType : ProgramType
  totalCapacity : Nat
deriving DecidableEq, Repr

/-- `AgeGroupConfig` from src/src/types. -/
structure AgeGroupConfig where
  id : AgeGroup
  label : String
  minAgeMonths : Int
  maxAgeMonths : Int
  color : String
deriving DecidableEq, Repr

/-- `DEFAULT_AGE_GROUPS` from src/src/utils/ageGroups.ts lines 5-20. -/
def DEFAULT_AGE_GROUPS : List AgeGroupConfig :=
  [ { id := AgeGroup.infant, label := "Infant", minAgeMonths := 0,
      maxAgeMonths := 24, color := "#f472b6" },
    { id := AgeGroup.non_infant, label := "Non-Infant", minAgeMonths := 24,
      maxAgeMonths := 240, color := "#60a5fa" } ]

/-- `getAgeInMonths` from src/src/utils/ageGroups.ts lines 22-33. -/
def getAgeInMonths (dateOfBirth : Date) (asOfDate : Date) : Int :=
  let years := asOfDate.year - dateOfBirth.year
  let months := asOfDate.month - dateOfBirth.month
  let dayDiff := asOfDate.day - dateOfBirth.day
  let totalMonths := years * 12 + months
  if dayDiff < 0 then totalMonths - 1 else totalMonths

/-- The `for (const group of DEFAULT_AGE_GROUPS)` loop body of `getAgeGroup`
(src/src/utils/ageGroups.ts lines 38-42): first group whose half-open
month range contains the age. -/
def findGroup : List AgeGroupConfig → Int → Option AgeGroup
  | [], _ => none
  | g :: rest, ageMonths =>
      if g.minAgeMonths ≤ ageMonths ∧ ageMonths < g.maxAgeMonths then some g.id
      else findGroup rest ageMonths

/-- `getAgeGroup` from src/src/utils/ageGroups.ts lines 35-45. -/
def getAgeGroup (dateOfBirth : Date) (asOfDate : Date) : Option AgeGroup :=
  findGroup DEFAULT_AGE_GROUPS (getAgeInMonths dateOfBirth asOfDate)

/-- `getMaxInfantsAllowed` from src/src/utils/compliance.ts lines 33-54. -/
def getMaxInfantsAllowed (programType : ProgramType) (totalChildren : Nat) : Nat :=
  match programType with
  | ProgramType.small_family =>
      if totalChildren ≤ 4 then 4
      else if totalChildren ≤ 6 then 3
      else 2
  | ProgramType.large_family =>
      if totalChildren ≤ 12 then 4
      else 3

/-- The `for (let newInfants = 1; newInfants <= totalSpotsLeft; newInfants++)`
loop of `getAvailableInfantSpots` (src/src/utils/compliance.ts lines 74-84),
with explicit fuel equal to the number of remaining iterations.
`acc` is the running `maxNewInfants`. -/
def availLoop (programType : ProgramType) (totalChildren currentInfants : Nat) :
    Nat → Nat → Nat → Nat
  | 0, _, acc => acc
  | fuel + 1, newInfants, acc =>
      if currentInfants + newInfants ≤
          getMaxInfantsAllowed programType (totalChildren + newInfants) then
        availLoop programType totalChildren currentInfants fuel (newInfants + 1) newInfants
      else acc

/-- `getAvailableInfantSpots` from src/src/utils/compliance.ts lines 59-87.
`totalCapacity - totalChildren` is JavaScript integer subtraction guarded by
`if (totalSpotsLeft <= 0) return 0`; over `Nat`, truncated subtraction with a
zero test is the same function. -/
def getAvailableInfantSpots (programType : ProgramType) (totalCapacity : Nat)
    (currentInfants currentNonInfants : Nat) : Nat :=
  let totalChildren := currentInfants + currentNonInfants
  let totalSpotsLeft := totalCapacity - totalChildren
  if totalSpotsLeft = 0 then 0
  else availLoop programType totalChildren currentInfants totalSpotsLeft 1 0

/-- Claim C1: for enrollment counts in the regulatory ranges,
`getMaxInfantsAllowed` returns exactly the table: small_family gives 4 on
[1,4], 3 on [5,6], 2 on [7,8]; large_family gives 4 on [1,12], 3 on [13,14]. -/
theorem getMaxInfantsAllowed_table (n : Nat) :
    (1 ≤ n → n ≤ 4 → getMaxInfantsAllowed ProgramType.small_family n = 4)
    ∧ (5 ≤ n → n ≤ 6 → getMaxInfantsAllowed ProgramType.small_family n = 3)
    ∧ (7 ≤ n → n ≤ 8 → getMaxInfantsAllowed ProgramType.small_family n = 2)
    ∧ (1 ≤ n → n ≤ 12 → getMaxInfantsAllowed ProgramType.large_family n = 4)
    ∧ (13 ≤ n → n ≤ 14 → getMaxInfantsAllowed ProgramType.large_family n = 3) := by
  refine ⟨?_, ?_, ?_, ?_, ?_⟩ <;> intro h1 h2 <;>
    simp only [getMaxInfantsAllowed] <;> split_ifs <;> omega

/-- Witness for C1: the table evaluated at the top of each range. -/
theorem getMaxInfantsAllowed_table_witness :
    getMaxInfantsAllowed ProgramType.small_family 4 = 4
    ∧ getMaxInfantsAllowed ProgramType.small_family 6 = 3
    ∧ getMaxInfantsAllowed ProgramType.small_family 8 = 2
    ∧ getMaxInfantsAllowed ProgramType.large_family 12 = 4
    ∧ getMaxInfantsAllowed ProgramType.large_family 14 = 3 :=
  ⟨(getMaxInfantsAllowed_table 4).1 (by decide) (by decide),
   (getMaxInfantsAllowed_table 6).2.1 (by decide) (by decide),
   (getMaxInfantsAllowed_table 8).2.2.1 (by decide) (by decide),
   (getMaxInfantsAllowed_table 12).2.2.2.1 (by decide) (by decide),
   (getMaxInfantsAllowed_table 14).2.2.2.2 (by decide) (by decide)⟩

/-- Loop invariant for `availLoop`: starting at iteration `k` (1-based) with
accumulator `k - 1` and all earlier increments compliant, the loop returns the
length of the longest all-compliant prefix of increments, stopping at the
first violation. -/
theorem availLoop_spec (programType : ProgramType) (totalChildren currentInfants : Nat) :
    ∀ fuel k, 1 ≤ k →
    (∀ j, 1 ≤ j → j < k →
      currentInfants + j ≤ getMaxInfantsAllowed programType (totalChildren + j)) →
    (k - 1 ≤ availLoop programType totalChildren currentInfants fuel k (k - 1))
    ∧ (availLoop programType totalChildren currentInfants fuel k (k - 1) ≤ k - 1 + fuel)
    ∧ (∀ j, 1 ≤ j →
        j ≤ availLoop programType totalChildren currentInfants fuel k (k - 1) →
        currentInfants + j ≤ getMaxInfantsAllowed programType (totalChildren + j))
    ∧ (availLoop programType totalChildren currentInfants fuel k (k - 1) < k - 1 + fuel →
        ¬ (currentInfants + (availLoop programType totalChildren currentInfants fuel k (k - 1) + 1)
            ≤ getMaxInfantsAllowed programType
              (totalChildren + (availLoop programType totalChildren currentInfants fuel k (k - 1) + 1)))) := by
  intro fuel
  induction fuel with
  | zero =>
      intro k hk hpre
      simp only [availLoop]
      refine ⟨Nat.le_refl _, Nat.le_refl _, ?_, ?_⟩
      · intro j hj1 hj2
        exact hpre j hj1 (by omega)
      · intro h
        exfalso
        omega
  | succ fuel ih =>
      intro k hk hpre
      by_cases hpass :
          currentInfants + k ≤ getMaxInfantsAllowed programType (totalChildren + k)
      · have hrw : availLoop programType totalChildren currentInfants (fuel + 1) k (k - 1)
            = availLoop programType totalChildren currentInfants fuel (k + 1) k := by
          simp only [availLoop, if_pos hpass]
        have hpre2 : ∀ j, 1 ≤ j → j < k + 1 →
            currentInfants + j ≤ getMaxInfantsAllowed programType (totalChildren + j) := by
          intro j hj1 hj2
          rcases Nat.lt_or_ge j k with hlt | hge
          · exact hpre j hj1 hlt
          · have : j = k := by omega
            simpa [this] using hpass
        have hmain := ih (k + 1) (by omega) hpre2
        rw [hrw]
        have hsub : k + 1 - 1 = k := by omega
        rw [hsub] at hmain
        refine ⟨by omega, by omega, hmain.2.2.1, ?_⟩
        intro h
        exact hmain.2.2.2 (by omega)
      · have hrw : availLoop programType totalChildren currentInfants (fuel + 1) k (k - 1)
            = k - 1 := by
          simp only [availLoop, if_neg hpass]
        rw [hrw]
        refine ⟨Nat.le_refl _, by omega, ?_, ?_⟩
        · intro j hj1 hj2
          exact hpre j hj1 (by omega)
        · intro _
          have : k - 1 + 1 = k := by omega
          rw [this]
          exact hpass

/-- Claim C4: `getAvailableInfantSpots` returns 0 when there is no remaining
total capacity, and otherwise the largest number `k` of additional infants
(capped by remaining capacity) such that every increment `j ≤ k` keeps
`currentInfants + j` within `getMaxInfantsAllowed` at the grown enrollment,
stopping at the first violating increment (so 0 when even one more infant
violates the rule). -/
theorem getAvailableInfantSpots_spec (programType : ProgramType)
    (totalCapacity currentInfants currentNonInfants : Nat) :
    (getAvailableInfantSpots programType totalCapacity currentInfants currentNonInfants
      ≤ totalCapacity - (currentInfants + currentNonInfants))
    ∧ (totalCapacity ≤ currentInfants + currentNonInfants →
        getAvailableInfantSpots programType totalCapacity currentInfants currentNonInfants = 0)
    ∧ (∀ j, 1 ≤ j →
        j ≤ getAvailableInfantSpots programType totalCapacity currentInfants currentNonInfants →
        currentInfants + j
          ≤ getMaxInfantsAllowed programType (currentInfants + currentNonInfants + j))
    ∧ (getAvailableInfantSpots programType totalCapacity currentInfants currentNonInfants
          < totalCapacity - (currentInfants + currentNonInfants) →
        ¬ (currentInfants +
            (getAvailableInfantSpots programType totalCapacity currentInfants currentNonInfants + 1)
          ≤ getMaxInfantsAllowed programType (currentInfants + currentNonInfants +
            (getAvailableInfantSpots programType totalCapacity currentInfants currentNonInfants + 1))))
    ∧ (∀ k, k ≤ totalCapacity - (currentInfants + currentNonInfants) →
        (∀ j, 1 ≤ j → j ≤ k →
          currentInfants + j
            ≤ getMaxInfantsAllowed programType (currentInfants + currentNonInfants + j)) →
        k ≤ getAvailableInfantSpots programType totalCapacity currentInfants currentNonInfants) := by
  by_cases hz : totalCapacity - (currentInfants + currentNonInfants) = 0
  · have hrw : getAvailableInfantSpots programType totalCapacity currentInfants currentNonInfants
        = 0 := by
      simp [getAvailableInfantSpots, hz]
    rw [hrw]
    refine ⟨by omega, fun _ => rfl, ?_, by omega, ?_⟩
    · intro j hj1 hj2
      omega
    · intro k hk _
      omega
  · have hrw : getAvailableInfantSpots programType totalCapacity currentInfants currentNonInfants
        = availLoop programType (currentInfants + currentNonInfants) currentInfants
            (totalCapacity - (currentInfants + currentNonInfants)) 1 0 := by
      simp [getAvailableInfantSpots, hz]
    have hmain := availLoop_spec programType (currentInfants + currentNonInfants) currentInfants
      (totalCapacity - (currentInfants + currentNonInfants)) 1 (Nat.le_refl 1)
      (by intro j hj1 hj2; omega)
    simp only [Nat.sub_self, Nat.zero_add] at hmain
    rw [hrw]
    refine ⟨by omega, by omega, hmain.2.2.1, by
      intro h
      exact hmain.2.2.2 (by omega), ?_⟩
    intro k hk hall
    by_contra hlt
    push_neg at hlt
    have hviol := hmain.2.2.2 (by omega)
    exact hviol (hall _ (by omega) (by omega))

/-- Witness for C4, at a small program with capacity 8, 0 infants and 5
non-infants: the result is 2, each of the 2 increments is compliant, and a
third infant would violate the ceiling. -/
theorem getAvailableInfantSpots_spec_witness :
    getAvailableInfantSpots ProgramType.small_family 8 0 5 = 2
    ∧ 0 + 2 ≤ getMaxInfantsAllowed ProgramType.small_family (0 + 5 + 2)
    ∧ ¬ (0 + (getAvailableInfantSpots ProgramType.small_family 8 0 5 + 1)
        ≤ getMaxInfantsAllowed ProgramType.small_family
            (0 + 5 + (getAvailableInfantSpots ProgramType.small_family 8 0 5 + 1))) :=
  ⟨by decide,
   (getAvailableInfantSpots_spec ProgramType.small_family 8 0 5).2.2.1 2 (by decide) (by decide),
   (getAvailableInfantSpots_spec ProgramType.small_family 8 0 5).2.2.2.1 (by decide)⟩

/-- Claim C5: `getAgeInMonths` is the whole-month difference
`(asOf.year - dob.year) * 12 + (asOf.month - dob.month)` decremented by one
exactly when the as-of day of month falls short of the birth day of month;
in particular a child born 2024-03-15 is 1 month old as of 2024-05-14 and
exactly 2 months old as of 2024-05-15. -/
theorem getAgeInMonths_spec (dob asOf : Date) :
    getAgeInMonths dob asOf
      = (asOf.year - dob.year) * 12 + (asOf.month - dob.month)
        - (if asOf.day < dob.day then 1 else 0)
    ∧ getAgeInMonths ⟨2024, 3, 15⟩ ⟨2024, 5, 14⟩ = 1
    ∧ getAgeInMonths ⟨2024, 3, 15⟩ ⟨2024, 5, 15⟩ = 2 := by
  refine ⟨?_, by decide, by decide⟩
  simp only [getAgeInMonths]
  split_ifs <;> omega

/-- Claim C6: `getAgeGroup` classifies as infant exactly on ages in [0, 24)
months, as non_infant exactly on [24, 240), and as none at or beyond 240
months. -/
theorem getAgeGroup_spec (dob asOf : Date) :
    (getAgeGroup dob asOf = some AgeGroup.infant
      ↔ (0 ≤ getAgeInMonths dob asOf ∧ getAgeInMonths dob asOf < 24))
    ∧ (getAgeGroup dob asOf = some AgeGroup.non_infant
      ↔ (24 ≤ getAgeInMonths dob asOf ∧ getAgeInMonths dob asOf < 240))
    ∧ (240 ≤ getAgeInMonths dob asOf → getAgeGroup dob asOf = none) := by
  simp only [getAgeGroup, DEFAULT_AGE_GROUPS, findGroup]
  split_ifs with h1 h2 <;> refine ⟨?_, ?_, ?_⟩ <;> simp_all
  all_goals omega

/-- Witness for C6: a child born exactly 24 months before the as-of date is
non_infant, and one born 300 months before is aged out. -/
theorem getAgeGroup_spec_witness :
    getAgeGroup ⟨2023, 6, 15⟩ ⟨2025, 6, 15⟩ = some AgeGroup.non_infant
    ∧ getAgeGroup ⟨2000, 1, 1⟩ ⟨2025, 1, 1⟩ = none :=
  ⟨(getAgeGroup_spec ⟨2023, 6, 15⟩ ⟨2025, 6, 15⟩).2.1.mpr (by decide),
   (getAgeGroup_spec ⟨2000, 1, 1⟩ ⟨2025, 1, 1⟩).2.2 (by decide)⟩

/-- Leap-year predicate, Gregorian rules. -/
def isLeapYear (y : Int) : Bool :=
  (y % 4 == 0 && y % 100 != 0) || y % 400 == 0

/-- Number of days in a month (date-fns / JavaScript `Date` month lengths). -/
def daysInMonth (y m : Int) : Int :=
  if m = 1 then 31
  else if m = 2 then (if isLeapYear y then 29 else 28)
  else if m = 3 then 31
  else if m = 4 then 30
  else if m = 5 then 31
  else if m = 6 then 30
  else if m = 7 then 31
  else if m = 8 then 31
  else if m = 9 then 30
  else if m = 10 then 31
  else if m = 11 then 30
  else 31

/-- date-fns `addMonths`: advance by `n` months, clamping the day of month to
the length of the target month. -/
def addMonths (d : Date) (n : Int) : Date :=
  let t := d.year * 12 + (d.month - 1) + n
  let y := Int.ediv t 12
  let m := Int.emod t 12 + 1
  { year := y, month := m, day := min d.day (daysInMonth y m) }

/-- `getAgeTransitionDate` from src/src/utils/projections.ts lines 7-10. -/
def getAgeTransitionDate (dateOfBirth : Date) (targetAgeMonths : Int) : Date :=
  addMonths dateOfBirth targetAgeMonths

/-- `getKindergartenStartDate` from src/src/utils/projections.ts lines 13-28.
The source tests `birthMonth > 8 || (birthMonth === 8 && birthDay >= 1)` on the
0-based `getMonth()`; with 1-based months that is
`month > 9 ∨ (month = 9 ∧ day ≥ 1)`. -/
def getKindergartenStartDate (dateOfBirth : Date) : Date :=
  let kindergartenYear := dateOfBirth.year + 5
  let kindergartenYear :=
    if dateOfBirth.month > 9 ∨ (dateOfBirth.month = 9 ∧ dateOfBirth.day ≥ 1) then
      kindergartenYear + 1
    else kindergartenYear
  { year := kindergartenYear, month := 9, day := 1 }

/-- Claim C7: for any valid birth date, the kindergarten start date is
September 1st of birthYear + 5, advanced one further year exactly when the
birth date falls on or after September 1st of its own year; born 2020-09-01
gives 2026-09-01 and born 2020-08-31 gives 2025-09-01. -/
theorem getKindergartenStartDate_spec (dob : Date) (hday : 1 ≤ dob.day) :
    getKindergartenStartDate dob
      = { year := (if 9 ≤ dob.month then dob.year + 6 else dob.year + 5),
          month := 9, day := 1 }
    ∧ getKindergartenStartDate ⟨2020, 9, 1⟩ = ⟨2026, 9, 1⟩
    ∧ getKindergartenStartDate ⟨2020, 8, 31⟩ = ⟨2025, 9, 1⟩ := by
  refine ⟨?_, by decide, by decide⟩
  simp only [getKindergartenStartDate, Date.mk.injEq]
  split_ifs with h1 h2 h2 <;> refine ⟨by omega, trivial, trivial⟩

/-- Witness for C7: the cutoff-day child rolls to the later year. -/
theorem getKindergartenStartDate_spec_witness :
    getKindergartenStartDate ⟨2020, 9, 1⟩ = ⟨2026, 9, 1⟩ :=
  (getKindergartenStartDate_spec ⟨2020, 9, 1⟩ (by decide)).2.1

/-- The `for (const child of children)` counting loop of
`calculateComplianceStatus` (src/src/utils/compliance.ts lines 100-108):
accumulates (infantCount, nonInfantCount), silently dropping aged-out
children. -/
def countAgeGroups : List Child → Date → Nat × Nat
  | [], _ => (0, 0)
  | child :: rest, today =>
      let counts := countAgeGroups rest today
      match getAgeGroup child.dateOfBirth today with
      | some AgeGroup.infant => (counts.1 + 1, counts.2)
      | some AgeGroup.non_infant => (counts.1, counts.2 + 1)
      | none => counts

/-- `ComplianceStatus` from src/src/utils/compliance.ts lines 17-28. -/
structure ComplianceStatus where
  isCompliant : Bool
  totalChildren : Nat
  infantCount : Nat
  nonInfantCount : Nat
  maxInfantsAllowed : Nat
  maxTotalAllowed : Nat
  infantSpotsAvailable : Nat
  totalSpotsAvailable : Nat
  warnings : List String
  errors : List String
deriving DecidableEq, Repr

/-- `calculateComplianceStatus` from src/src/utils/compliance.ts lines 92-166.
The implicit `new Date()` is made an explicit `today` parameter.  The JS test
`totalChildren >= maxTotalAllowed - 1` is integer arithmetic, rendered over
`Nat` as `maxTotal ≤ totalChildren + 1`. -/
def calculateComplianceStatus (children : List Child) (capacityConfig : CapacityConfig)
    (today : Date) : ComplianceStatus :=
  let infantCount := (countAgeGroups children today).1
  let nonInfantCount := (countAgeGroups children today).2
  let totalChildren := infantCount + nonInfantCount
  let maxInfants := getMaxInfantsAllowed capacityConfig.programType totalChildren
  let maxTotal := capacityConfig.totalCapacity
  let errors :=
    (if maxTotal < totalChildren then
      ["Over capacity: " ++ toString totalChildren ++
        " children exceeds licensed capacity of " ++ toString maxTotal]
     else []) ++
    (if maxInfants < infantCount then
      ["Infant ratio violation: " ++ toString infantCount ++
        " infants exceeds maximum of " ++ toString maxInfants ++
        " allowed for " ++ toString totalChildren ++ " total children"]
     else [])
  let warnings :=
    (if totalChildren = maxTotal then ["At full capacity"]
     else if maxTotal ≤ totalChildren + 1 then ["Near full capacity"]
     else []) ++
    (if infantCount = maxInfants ∧ 0 < infantCount then
      ["At maximum infant capacity"] else []) ++
    (if capacityConfig.programType = ProgramType.small_family ∧ 6 < totalChildren then
      ["7-8 children requires: 1 child in K-12 + 1 child age 6+"] else []) ++
    (if capacityConfig.programType = ProgramType.large_family ∧ 12 < totalChildren then
      ["13-14 children requires: 1 child in K-12 + 1 child age 6+"] else [])
  { isCompliant := errors.length == 0,
    totalChildren := totalChildren,
    infantCount := infantCount,
    nonInfantCount := nonInfantCount,
    maxInfantsAllowed := maxInfants,
    maxTotalAllowed := maxTotal,
    infantSpotsAvailable :=
      getAvailableInfantSpots capacityConfig.programType maxTotal infantCount nonInfantCount,
    totalSpotsAvailable := maxTotal - totalChildren,
    warnings := warnings,
    errors := errors }

/-- A roster entry that is an infant as of `demoToday`. -/
def mkInfant (k : Nat) : Child :=
  { id := k, firstName := "Infant", lastName := toString k,
    dateOfBirth := ⟨2025, 1, 1⟩, expectedDepartureDate := none }

/-- Twelve enrolled infants (end-to-end scenario B of the spec). -/
def twelveInfants : List Child := (List.range 12).map mkInfant

/-- Large family program licensed for 14 children. -/
def largeCfg : CapacityConfig := ⟨ProgramType.large_family, 14⟩

/-- Fixed processing date used by the concrete scenarios. -/
def demoToday : Date := ⟨2025, 6, 15⟩

/-- A roster entry that is a non-infant (65 months) as of `demoToday`. -/
def mkNonInfant (k : Nat) : Child :=
  { id := k, firstName := "Kid", lastName := toString k,
    dateOfBirth := ⟨2020, 1, 1⟩, expectedDepartureDate := none }

/-- Three enrolled non-infants. -/
def threeNonInfants : List Child := (List.range 3).map mkNonInfant

/-- Small family program licensed for 2 children (over-enrolled by
`threeNonInfants`). -/
def tinyCfg : CapacityConfig := ⟨ProgramType.small_family, 2⟩

/-- Claim C2: `isCompliant` holds iff the errors list is empty; the errors
list is non-empty exactly when the roster is over capacity or over the infant
ceiling; and a large program with capacity 14 and 12 enrolled infants is
non-compliant with an infant-ratio violation despite capacity headroom. -/
theorem calculateComplianceStatus_errors_spec (children : List Child)
    (capacityConfig : CapacityConfig) (today : Date) :
    ((calculateComplianceStatus children capacityConfig today).isCompliant = true
      ↔ (calculateComplianceStatus children capacityConfig today).errors = [])
    ∧ ((calculateComplianceStatus children capacityConfig today).errors ≠ []
      ↔ (capacityConfig.totalCapacity
            < (calculateComplianceStatus children capacityConfig today).totalChildren
        ∨ getMaxInfantsAllowed capacityConfig.programType
            (calculateComplianceStatus children capacityConfig today).totalChildren
            < (calculateComplianceStatus children capacityConfig today).infantCount))
    ∧ (calculateComplianceStatus twelveInfants largeCfg demoToday).isCompliant = false
    ∧ "Infant ratio violation: 12 infants exceeds maximum of 4 allowed for 12 total children"
        ∈ (calculateComplianceStatus twelveInfants largeCfg demoToday).errors := by
  refine ⟨?_, ?_, by decide, by decide⟩
  · simp only [calculateComplianceStatus, beq_iff_eq, List.length_eq_zero]
  · simp only [calculateComplianceStatus]
    split_ifs <;> simp_all

/-- Claim C8 (as stated): the compliance snapshot satisfies
`infantCount + nonInfantCount ≤ totalChildren`, with equality whenever no
child in the roster has aged out.  (In the code `totalChildren` is defined as
the sum, so equality in fact always holds.) -/
theorem calculateComplianceStatus_count_invariant (children : List Child)
    (capacityConfig : CapacityConfig) (today : Date) :
    ((calculateComplianceStatus children capacityConfig today).infantCount
        + (calculateComplianceStatus children capacityConfig today).nonInfantCount
      ≤ (calculateComplianceStatus children capacityConfig today).totalChildren)
    ∧ ((∀ c ∈ children, getAgeGroup c.dateOfBirth today ≠ none) →
        (calculateComplianceStatus children capacityConfig today).infantCount
            + (calculateComplianceStatus children capacityConfig today).nonInfantCount
          = (calculateComplianceStatus children capacityConfig today).totalChildren) :=
  ⟨Nat.le_refl _, fun _ => rfl⟩

/-- Witness for C8: the twelve-infant roster, where no child has aged out. -/
theorem calculateComplianceStatus_count_invariant_witness :
    (calculateComplianceStatus twelveInfants largeCfg demoToday).infantCount
        + (calculateComplianceStatus twelveInfants largeCfg demoToday).nonInfantCount
      = (calculateComplianceStatus twelveInfants largeCfg demoToday).totalChildren :=
  (calculateComplianceStatus_count_invariant twelveInfants largeCfg demoToday).2 (by decide)

/-- Counterexample to Claim C3 as stated: with 3 counted children and licensed
capacity 2 the roster is over capacity, yet the code still emits the
"Near full capacity" warning, although totalChildren ≠ maxTotalAllowed - 1. -/
theorem nearFullWarning_counterexample :
    "Near full capacity" ∈ (calculateComplianceStatus threeNonInfants tinyCfg demoToday).warnings
    ∧ (calculateComplianceStatus threeNonInfants tinyCfg demoToday).totalChildren ≠
        (calculateComplianceStatus threeNonInfants tinyCfg demoToday).maxTotalAllowed - 1 := by
  decide

/-- The capacity warnings are textually distinct from every other warning
string the evaluator can emit. -/
theorem warningStrings_distinct :
    ("At full capacity" : String) ≠ "Near full capacity"
    ∧ ("At full capacity" : String) ≠ "At maximum infant capacity"
    ∧ ("At full capacity" : String) ≠ "7-8 children requires: 1 child in K-12 + 1 child age 6+"
    ∧ ("At full capacity" : String) ≠ "13-14 children requires: 1 child in K-12 + 1 child age 6+"
    ∧ ("Near full capacity" : String) ≠ "At full capacity"
    ∧ ("Near full capacity" : String) ≠ "At maximum infant capacity"
    ∧ ("Near full capacity" : String) ≠ "7-8 children requires: 1 child in K-12 + 1 child age 6+"
    ∧ ("Near full capacity" : String) ≠ "13-14 children requires: 1 child in K-12 + 1 child age 6+" := by
  refine ⟨?_, ?_, ?_, ?_, ?_, ?_, ?_, ?_⟩ <;> decide

/-- Claim C3 (amended): "At full capacity" is emitted exactly when
`totalChildren = maxTotalAllowed`, and "Near full capacity" exactly when
`totalChildren ≥ maxTotalAllowed - 1` but `totalChildren ≠ maxTotalAllowed`
(so also whenever the roster is over capacity, not only at exactly one spot
short of capacity). -/
theorem calculateComplianceStatus_capacity_warnings (children : List Child)
    (capacityConfig : CapacityConfig) (today : Date) :
    ("At full capacity" ∈ (calculateComplianceStatus children capacityConfig today).warnings
      ↔ (calculateComplianceStatus children capacityConfig today).totalChildren
          = (calculateComplianceStatus children capacityConfig today).maxTotalAllowed)
    ∧ ("Near full capacity" ∈ (calculateComplianceStatus children capacityConfig today).warnings
      ↔ ((calculateComplianceStatus children capacityConfig today).maxTotalAllowed
            ≤ (calculateComplianceStatus children capacityConfig today).totalChildren + 1
        ∧ (calculateComplianceStatus children capacityConfig today).totalChildren
            ≠ (calculateComplianceStatus children capacityConfig today).maxTotalAllowed)) := by
  simp only [calculateComplianceStatus]
  split_ifs <;> simp [warningStrings_distinct] <;> omega

/-- The proposal `handleAutoFill` passes to `onAutoFill`
(src/src/components/registry/RosterSummary.tsx lines 88-93). -/
structure AutoFillProposal where
  infant_spots : Nat
  toddler_spots : Nat
  preschool_spots : Nat
  school_age_spots : Nat
deriving DecidableEq, Repr

/-- The `atCapacityInfantLimit` computation of RosterSummary.tsx
(lines 69-71): the infant ceiling evaluated at full licensed capacity. -/
def atCapacityInfantLimit (programType : ProgramType) (totalCapacity : Nat) : Nat :=
  match programType with
  | ProgramType.small_family =>
      if totalCapacity ≤ 4 then 4 else if totalCapacity ≤ 6 then 3 else 2
  | ProgramType.large_family =>
      if totalCapacity ≤ 12 then 4 else 3

/-- `handleAutoFill` from src/src/components/registry/RosterSummary.tsx
lines 60-94, as a function of the enrollment snapshot
(`totalEnrolled = children.length`, `currentInfants = ageCounts.infant`) and
the capacity configuration.  `Math.max(0, Math.min(...))` is computed over
`Int` and then truncated, mirroring JavaScript number arithmetic. -/
def handleAutoFill (programType : ProgramType)
    (totalCapacity totalEnrolled currentInfants : Nat) : AutoFillProposal :=
  let totalAvailable : Nat := totalCapacity - totalEnrolled
  let limit := atCapacityInfantLimit programType totalCapacity
  let infantSpotsAvailable : Nat :=
    (max 0 (min ((limit : Int) - (currentInfants : Int)) (totalAvailable : Int))).toNat
  let remainingSpots : Nat := totalAvailable - infantSpotsAvailable
  let spotsPerGroup := remainingSpots / 3
  let extraSpots := remainingSpots % 3
  { infant_spots := infantSpotsAvailable,
    toddler_spots := spotsPerGroup + (if 1 ≤ extraSpots then 1 else 0),
    preschool_spots := spotsPerGroup + (if 2 ≤ extraSpots then 1 else 0),
    school_age_spots := spotsPerGroup }

/-- Claim C9: the auto-fill allocator proposes
`infant_spots = max(0, min(L - currentInfants, A))` with `A` the remaining
total capacity and `L` the infant ceiling at full capacity (which coincides
with `getMaxInfantsAllowed` at `totalCapacity`); the remainder is split
3 ways with toddler, then preschool, receiving the extras; and a small
program with capacity 8 and empty roster gets 2/2/2/2. -/
theorem handleAutoFill_spec (programType : ProgramType)
    (totalCapacity totalEnrolled currentInfants : Nat) :
    atCapacityInfantLimit programType totalCapacity
      = getMaxInfantsAllowed programType totalCapacity
    ∧ (handleAutoFill programType totalCapacity totalEnrolled currentInfants).infant_spots
      = (max 0 (min ((getMaxInfantsAllowed programType totalCapacity : Int)
            - (currentInfants : Int))
          ((totalCapacity - totalEnrolled : Nat) : Int))).toNat
    ∧ (handleAutoFill programType totalCapacity totalEnrolled currentInfants).toddler_spots
      = (totalCapacity - totalEnrolled
          - (handleAutoFill programType totalCapacity totalEnrolled currentInfants).infant_spots) / 3
        + (if 1 ≤ (totalCapacity - totalEnrolled
            - (handleAutoFill programType totalCapacity totalEnrolled currentInfants).infant_spots) % 3
          then 1 else 0)
    ∧ (handleAutoFill programType totalCapacity totalEnrolled currentInfants).preschool_spots
      = (totalCapacity - totalEnrolled
          - (handleAutoFill programType totalCapacity totalEnrolled currentInfants).infant_spots) / 3
        + (if 2 ≤ (totalCapacity - totalEnrolled
            - (handleAutoFill programType totalCapacity totalEnrolled currentInfants).infant_spots) % 3
          then 1 else 0)
    ∧ (handleAutoFill programType totalCapacity totalEnrolled currentInfants).school_age_spots
      = (totalCapacity - totalEnrolled
          - (handleAutoFill programType totalCapacity totalEnrolled currentInfants).infant_spots) / 3
    ∧ handleAutoFill ProgramType.small_family 8 0 0
      = { infant_spots := 2, toddler_spots := 2, preschool_spots := 2, school_age_spots := 2 } := by
  have hlim : atCapacityInfantLimit programType totalCapacity
      = getMaxInfantsAllowed programType totalCapacity := by
    cases programType <;> rfl
  refine ⟨hlim, ?_, rfl, rfl, rfl, by decide⟩
  simp only [handleAutoFill, hlim]

/-- JavaScript `Date` comparison (`>=`, `<=` on epoch time) rendered as
lexicographic comparison on (year, month, day); equivalent for valid dates. -/
def dateLE (a b : Date) : Bool :=
  if a.year < b.year then true
  else if b.year < a.year then false
  else if a.month < b.month then true
  else if b.month < a.month then false
  else decide (a.day ≤ b.day)

/-- The `reason` union of `ProjectedOpening` in src/src/types. -/
inductive OpeningReason where
  | aging_into_next_group
  | aging_out
  | kindergarten
  | scheduled_departure
deriving DecidableEq, Repr

/-- `ProjectedOpening` from src/src/types; the ISO `date` string is modelled
as a `Date` value. -/
structure ProjectedOpening where
  date : Date
  ageGroup : AgeGroup
  reason : OpeningReason
  childId : Nat
  childName : String
deriving DecidableEq, Repr

/-- Placeholder used by `getLastD`/`headD`; `DEFAULT_AGE_GROUPS` is non-empty,
so it is never reached. -/
def dummyAgeGroupConfig : AgeGroupConfig :=
  { id := AgeGroup.infant, label := "", minAgeMonths := 0, maxAgeMonths := 0, color := "" }

/-- The body of the `for (const child of children)` loop of
`calculateProjectedOpenings` (src/src/utils/projections.ts lines 38-102): the
(zero or one) events contributed by one child.  The four `continue`s of the
source make the branches mutually exclusive. -/
def childEvents (today projectionEnd : Date) (child : Child) : List ProjectedOpening :=
  let childName := child.firstName ++ " " ++ child.lastName
  match child.expectedDepartureDate with
  | some departureDate =>
      if dateLE today departureDate && dateLE departureDate projectionEnd then
        match getAgeGroup child.dateOfBirth departureDate with
        | some currentAgeGroup =>
            [{ date := departureDate, ageGroup := currentAgeGroup,
               reason := OpeningReason.scheduled_departure, childId := child.id,
               childName := childName }]
        | none => []
      else []
  | none =>
      let kStartDate := getKindergartenStartDate child.dateOfBirth
      if dateLE today kStartDate && dateLE kStartDate projectionEnd then
        [{ date := kStartDate, ageGroup := AgeGroup.non_infant,
           reason := OpeningReason.kindergarten, childId := child.id,
           childName := childName }]
      else
        let maxAgeGroup := DEFAULT_AGE_GROUPS.getLastD dummyAgeGroupConfig
        let agingOutDate := getAgeTransitionDate child.dateOfBirth maxAgeGroup.maxAgeMonths
        if dateLE today agingOutDate && dateLE agingOutDate projectionEnd then
          [{ date := agingOutDate, ageGroup := AgeGroup.non_infant,
             reason := OpeningReason.aging_out, childId := child.id,
             childName := childName }]
        else
          let infantGroup := DEFAULT_AGE_GROUPS.headD dummyAgeGroupConfig
          let transitionDate := getAgeTransitionDate child.dateOfBirth infantGroup.maxAgeMonths
          if dateLE today transitionDate && dateLE transitionDate projectionEnd then
            if getAgeGroup child.dateOfBirth today = some AgeGroup.infant then
              [{ date := transitionDate, ageGroup := AgeGroup.infant,
                 reason := OpeningReason.aging_into_next_group, childId := child.id,
                 childName := childName }]
            else []
          else []

/-- The ascending-by-date sort order of the final
`openings.sort((a, b) => new Date(a.date).getTime() - new Date(b.date).getTime())`. -/
def openingLE (a b : ProjectedOpening) : Prop := dateLE a.date b.date = true

instance openingLE_dec : DecidableRel openingLE :=
  fun a b => inferInstanceAs (Decidable (dateLE a.date b.date = true))

/-- `calculateProjectedOpenings` from src/src/utils/projections.ts lines
30-108, with the implicit `new Date()` as an explicit `today` parameter;
JavaScript's stable `Array.prototype.sort` is modelled by a stable
insertion sort. -/
def calculateProjectedOpenings (children : List Child) (projectionMonths : Int)
    (today : Date) : List ProjectedOpening :=
  let projectionEnd := addMonths today projectionMonths
  let openings := children.flatMap (childEvents today projectionEnd)
  List.insertionSort openingLE openings

/-- Every event a child contributes carries that child's id. -/
theorem childEvents_childId (today projectionEnd : Date) (c : Child) :
    ∀ e ∈ childEvents today projectionEnd c, e.childId = c.id := by
  intro e he
  simp only [childEvents] at he
  repeat' split at he
  all_goals simp_all

/-- A child contributes at most one event per call. -/
theorem childEvents_length_le_one (today projectionEnd : Date) (c : Child) :
    (childEvents today projectionEnd c).length ≤ 1 := by
  simp only [childEvents]
  repeat' split
  all_goals simp

/-- With a scheduled departure set, any contributed event has reason
`scheduled_departure`. -/
theorem childEvents_dep_reason (today projectionEnd : Date) (c : Child) (d : Date)
    (hdep : c.expectedDepartureDate = some d) :
    ∀ e ∈ childEvents today projectionEnd c, e.reason = OpeningReason.scheduled_departure := by
  intro e he
  simp only [childEvents, hdep] at he
  repeat' split at he
  all_goals simp_all

/-- With a scheduled departure outside the projection window, or a child
already aged out as of the departure date, no event is contributed. -/
theorem childEvents_dep_none (today projectionEnd : Date) (c : Child) (d : Date)
    (hdep : c.expectedDepartureDate = some d)
    (hout : (dateLE today d && dateLE d projectionEnd) = false
      ∨ getAgeGroup c.dateOfBirth d = none) :
    childEvents today projectionEnd c = [] := by
  simp only [childEvents, hdep]
  rcases hout with hout | hout
  · simp [hout]
  · simp [hout]

/-- With pairwise-distinct child ids, filtering the concatenated event stream
by one enrolled child's id recovers exactly that child's contribution. -/
theorem filter_flatMap_childEvents (today projectionEnd : Date) :
    ∀ (children : List Child) (c : Child),
    (children.map Child.id).Nodup → c ∈ children →
    (children.flatMap (childEvents today projectionEnd)).filter
        (fun e => e.childId == c.id)
      = childEvents today projectionEnd c := by
  intro children
  induction children with
  | nil =>
      intro c _ hc
      cases hc
  | cons hd tl ih =>
      intro c hnd hc
      rw [List.flatMap_cons, List.filter_append]
      rw [List.map_cons, List.nodup_cons] at hnd
      rcases List.mem_cons.mp hc with hceq | hctl
      · subst hceq
        have h1 : (childEvents today projectionEnd c).filter (fun e => e.childId == c.id)
            = childEvents today projectionEnd c := by
          apply List.filter_eq_self.mpr
          intro e he
          simp [childEvents_childId today projectionEnd c e he]
        have h2 : (tl.flatMap (childEvents today projectionEnd)).filter
            (fun e => e.childId == c.id) = [] := by
          apply List.filter_eq_nil_iff.mpr
          intro e he
          rcases List.mem_flatMap.mp he with ⟨c2, hc2, he2⟩
          have hid := childEvents_childId today projectionEnd c2 e he2
          have hmem : c2.id ∈ tl.map Child.id := List.mem_map_of_mem _ hc2
          simp only [hid, beq_iff_eq, Bool.not_eq_true]
          intro hEq
          exact hnd.1 (hEq ▸ hmem)
        rw [h1, h2, List.append_nil]
      · have hne : hd.id ≠ c.id := by
          intro hEq
          have hmem : c.id ∈ tl.map Child.id := List.mem_map_of_mem _ hctl
          exact hnd.1 (hEq ▸ hmem)
        have h1 : (childEvents today projectionEnd hd).filter
            (fun e => e.childId == c.id) = [] := by
          apply List.filter_eq_nil_iff.mpr
          intro e he
          have hid := childEvents_childId today projectionEnd hd e he
          simp [hid, hne]
        rw [h1, List.nil_append]
        exact ih c hnd.2 hctl

/-- Claim C10: in a roster with distinct child ids, a child with a scheduled
departure date contributes at most one event to `calculateProjectedOpenings`,
that event can only have reason `scheduled_departure`, and when the departure
date lies outside [today, today + horizon] or the child has aged out as of
that date, the child contributes no event at all. -/
theorem calculateProjectedOpenings_departure (children : List Child)
    (projectionMonths : Int) (today : Date) (c : Child) (d : Date)
    (hnd : (children.map Child.id).Nodup) (hc : c ∈ children)
    (hdep : c.expectedDepartureDate = some d) :
    ((calculateProjectedOpenings children projectionMonths today).filter
        (fun e => e.childId == c.id)).length ≤ 1
    ∧ (∀ e ∈ (calculateProjectedOpenings children projectionMonths today).filter
          (fun e => e.childId == c.id), e.reason = OpeningReason.scheduled_departure)
    ∧ (((dateLE today d && dateLE d (addMonths today projectionMonths)) = false
          ∨ getAgeGroup c.dateOfBirth d = none) →
        (calculateProjectedOpenings children projectionMonths today).filter
            (fun e => e.childId == c.id) = []) := by
  have hperm : (calculateProjectedOpenings children projectionMonths today).Perm
      (children.flatMap (childEvents today (addMonths today projectionMonths))) :=
    List.perm_insertionSort _ _
  have hfil := hperm.filter (fun e => e.childId == c.id)
  rw [filter_flatMap_childEvents today (addMonths today projectionMonths) children c hnd hc]
    at hfil
  refine ⟨?_, ?_, ?_⟩
  · rw [hfil.length_eq]
    exact childEvents_length_le_one today (addMonths today projectionMonths) c
  · intro e he
    exact childEvents_dep_reason today (addMonths today projectionMonths) c d hdep e
      (hfil.mem_iff.mp he)
  · intro hout
    rw [childEvents_dep_none today (addMonths today projectionMonths) c d hdep hout] at hfil
    exact hfil.eq_nil

/-- A child with a scheduled departure inside the demo window. -/
def demoDepChild : Child :=
  { id := 1, firstName := "Ana", lastName := "Lopez",
    dateOfBirth := ⟨2024, 1, 1⟩, expectedDepartureDate := some ⟨2025, 9, 1⟩ }

/-- Witness for C10: a singleton roster with a scheduled departure. -/
theorem calculateProjectedOpenings_departure_witness :
    ((calculateProjectedOpenings [demoDepChild] 6 demoToday).filter
        (fun e => e.childId == demoDepChild.id)).length ≤ 1 :=
  (calculateProjectedOpenings_departure [demoDepChild] 6 demoToday demoDepChild ⟨2025, 9, 1⟩
    (by decide) (by decide) rfl).1
